import Mathlib

/-!
Verification development for the processing_node streaming application.

The development shallowly embeds the concurrency-and-failure-handling
substrate of the repository: the per-pump windowed Error Tracker, the
process-wide Shutdown coordinator, the startup barrier wiring of the
sender, and the per-iteration behaviour of the four stream-pump loops
(`start_audio_sending` and `start_video_sending` in `src/sender.rs`,
`read_audio_track` and `read_video_track` in `src/services/receiver.rs`).

Pure control flow of the loops is translated directly from the Rust
source; the externally scheduled outcomes of one loop iteration (did the
channel receive succeed, did the track write succeed, which select arm
fired) are supplied as an explicit event so that each loop body becomes a
total function from tracker state and event to the iteration's effects.
-/

/- ---------------------------------------------------------------------
Configuration constants, from src/utils/webrtc_const.rs (lines 25-29).
--------------------------------------------------------------------- -/

def READ_TRACK_THRESHOLD : Nat := 900

def READ_TRACK_LIMIT : Nat := 1000

def SEND_TRACK_THRESHOLD : Nat := 9000

def SEND_TRACK_LIMIT : Nat := 10000

/- ---------------------------------------------------------------------
Error Tracker.

Modelled from the spec: the implementation file `src/utils/error_tracker.rs`
is not in the source tree (only its callers are, e.g.
src/services/receiver.rs line 223 and src/sender.rs lines 304-305).
Spec section 4.1 gives the contract verbatim:
`new(threshold, limit)` starts with `attempts = 0, errors = 0`;
`record_success()` (called `increment` in the code) does `attempts += 1`
and resets both counters when `attempts >= limit`;
`record_failure() -> bool` (called `increment_with_error` in the code)
does `errors += 1; attempts += 1`, returns true when `errors >= threshold`,
otherwise resets both counters and returns false when `attempts >= limit`,
otherwise returns false.
--------------------------------------------------------------------- -/

/-- State of one Error Tracker. The Rust counters are `u32`; all values
reachable from `new` are bounded by `limit` and `threshold`, far below
`2^32`, so plain `Nat` is faithful. -/
structure ErrorTracker where
  threshold : Nat
  limit : Nat
  attempts : Nat
  errors : Nat
  deriving DecidableEq, Repr

/-- Modelled from the spec: constructor `ErrorTracker::new(threshold, limit)`. -/
def ErrorTracker.new (threshold limit : Nat) : ErrorTracker :=
  { threshold := threshold, limit := limit, attempts := 0, errors := 0 }

/-- Modelled from the spec: `increment` (`record_success`): one more
attempt; when the window of `limit` attempts has elapsed, reset both
counters. -/
def ErrorTracker.increment (t : ErrorTracker) : ErrorTracker :=
  if t.attempts + 1 ≥ t.limit then
    { t with attempts := 0, errors := 0 }
  else
    { t with attempts := t.attempts + 1 }

/-- Modelled from the spec: `increment_with_error` (`record_failure`):
one more error and one more attempt; fatal (true) when the error count
reaches `threshold`; otherwise the window resets when `limit` attempts
have elapsed; the boolean is the returned fatal verdict. -/
def ErrorTracker.increment_with_error (t : ErrorTracker) : ErrorTracker × Bool :=
  if t.errors + 1 ≥ t.threshold then
    ({ t with errors := t.errors + 1, attempts := t.attempts + 1 }, true)
  else if t.attempts + 1 ≥ t.limit then
    ({ t with errors := 0, attempts := 0 }, false)
  else
    ({ t with errors := t.errors + 1, attempts := t.attempts + 1 }, false)

/-- One recording made by a pump on its tracker: a success
(`increment`) or a failure (`increment_with_error`). -/
inductive TrackerCall where
  | success : TrackerCall
  | failure : TrackerCall
  deriving DecidableEq, Repr

/-- Run a sequence of recordings through a tracker, threading the state. -/
def ErrorTracker.run (t : ErrorTracker) : List TrackerCall → ErrorTracker
  | [] => t
  | TrackerCall.success :: rest => t.increment.run rest
  | TrackerCall.failure :: rest => (t.increment_with_error).1.run rest

/-- True when no failure recording in the sequence returns the fatal
verdict; the spec forbids calling a tracker again after a fatal verdict,
so reachable histories are exactly the `noFatal` ones. -/
def ErrorTracker.noFatal (t : ErrorTracker) : List TrackerCall → Bool
  | [] => true
  | TrackerCall.success :: rest => t.increment.noFatal rest
  | TrackerCall.failure :: rest =>
      !(t.increment_with_error).2 && (t.increment_with_error).1.noFatal rest

example :
    (ErrorTracker.new 2 5).run
      [TrackerCall.success, TrackerCall.failure, TrackerCall.success] =
    { threshold := 2, limit := 5, attempts := 3, errors := 1 } := by decide

example :
    ((ErrorTracker.new 2 5).run
      [TrackerCall.success, TrackerCall.failure, TrackerCall.success]).increment_with_error =
    ({ threshold := 2, limit := 5, attempts := 4, errors := 2 }, true) := by decide

/- ---------------------------------------------------------------------
Error Tracker invariants (claim C1).
--------------------------------------------------------------------- -/

/-- Invariant of a live (never-fatal) tracker: within the current window
the error count is strictly below the threshold and the attempt count is
strictly below the limit, and errors never exceed attempts. -/
def ErrorTracker.Live (t : ErrorTracker) : Prop :=
  t.errors < t.threshold ∧ t.attempts < t.limit ∧ t.errors ≤ t.attempts

lemma ErrorTracker.increment_live {t : ErrorTracker}
    (hthr : 0 < t.threshold) (hle : t.threshold ≤ t.limit)
    (h : t.Live) : t.increment.Live := by
  rcases h with ⟨h1, h2, h3⟩
  unfold ErrorTracker.increment ErrorTracker.Live
  split <;> simp_all <;> omega

lemma ErrorTracker.increment_threshold (t : ErrorTracker) :
    t.increment.threshold = t.threshold := by
  unfold ErrorTracker.increment; split <;> rfl

lemma ErrorTracker.increment_limit (t : ErrorTracker) :
    t.increment.limit = t.limit := by
  unfold ErrorTracker.increment; split <;> rfl

lemma ErrorTracker.increment_with_error_live {t : ErrorTracker}
    (hthr : 0 < t.threshold) (hle : t.threshold ≤ t.limit)
    (h : t.Live) (hnf : (t.increment_with_error).2 = false) :
    (t.increment_with_error).1.Live := by
  rcases h with ⟨h1, h2, h3⟩
  unfold ErrorTracker.increment_with_error at hnf ⊢
  by_cases hc1 : t.errors + 1 ≥ t.threshold
  · rw [if_pos hc1] at hnf
    simp at hnf
  · rw [if_neg hc1] at hnf ⊢
    by_cases hc2 : t.attempts + 1 ≥ t.limit
    · rw [if_pos hc2]
      exact ⟨show (0 : Nat) < t.threshold from hthr,
             show (0 : Nat) < t.limit by omega,
             Nat.le_refl 0⟩
    · rw [if_neg hc2]
      exact ⟨show t.errors + 1 < t.threshold by omega,
             show t.attempts + 1 < t.limit by omega,
             show t.errors + 1 ≤ t.attempts + 1 by omega⟩

lemma ErrorTracker.increment_with_error_threshold (t : ErrorTracker) :
    (t.increment_with_error).1.threshold = t.threshold := by
  unfold ErrorTracker.increment_with_error
  split
  · rfl
  · split <;> rfl

lemma ErrorTracker.increment_with_error_limit (t : ErrorTracker) :
    (t.increment_with_error).1.limit = t.limit := by
  unfold ErrorTracker.increment_with_error
  split
  · rfl
  · split <;> rfl

/-- The fatal verdict of a failure recording is exactly "the error count
including this failure has reached the threshold". -/
lemma ErrorTracker.increment_with_error_verdict (t : ErrorTracker) :
    (t.increment_with_error).2 = true ↔ t.threshold ≤ t.errors + 1 := by
  unfold ErrorTracker.increment_with_error
  split
  · simp; omega
  · split <;> simp <;> omega

/-- Any recording history with no fatal verdict keeps a tracker live and
preserves its configuration. -/
lemma ErrorTracker.run_live :
    ∀ (evs : List TrackerCall) (t : ErrorTracker),
      0 < t.threshold → t.threshold ≤ t.limit → t.Live →
      t.noFatal evs = true →
      (t.run evs).Live ∧ (t.run evs).threshold = t.threshold ∧
        (t.run evs).limit = t.limit := by
  intro evs
  induction evs with
  | nil => intro t h1 h2 h3 _; exact ⟨h3, rfl, rfl⟩
  | cons ev rest ih =>
      intro t h1 h2 h3 hnf
      cases ev with
      | success =>
          have hnf' : t.increment.noFatal rest = true := hnf
          have := ih t.increment
            (by rw [ErrorTracker.increment_threshold]; exact h1)
            (by rw [ErrorTracker.increment_threshold, ErrorTracker.increment_limit]; exact h2)
            (ErrorTracker.increment_live h1 h2 h3) hnf'
          simpa [ErrorTracker.run, ErrorTracker.increment_threshold,
            ErrorTracker.increment_limit] using this
      | failure =>
          have hsplit : (!(t.increment_with_error).2 &&
              (t.increment_with_error).1.noFatal rest) = true := hnf
          rw [Bool.and_eq_true, Bool.not_eq_true'] at hsplit
          rcases hsplit with ⟨hv, hnf'⟩
          have := ih (t.increment_with_error).1
            (by rw [ErrorTracker.increment_with_error_threshold]; exact h1)
            (by rw [ErrorTracker.increment_with_error_threshold,
                    ErrorTracker.increment_with_error_limit]; exact h2)
            (ErrorTracker.increment_with_error_live h1 h2 h3 hv) hnf'
          simpa [ErrorTracker.run, ErrorTracker.increment_with_error_threshold,
            ErrorTracker.increment_with_error_limit] using this

/-- C1: for a tracker constructed with `0 < threshold ≤ limit` and any
recording history that has not yet returned a fatal verdict, the next
failure recording returns true exactly when the running error count
since the last reset reaches `threshold`; that happens strictly inside
the current window (`errors ≤ attempts < limit` beforehand, so at most
`limit` attempts have elapsed since the last reset when the verdict
fires); and a success recording that brings the attempt count to `limit`
resets both counters to zero. -/
theorem error_tracker_fatal_iff_threshold_within_window
    (threshold limit : Nat) (evs : List TrackerCall)
    (hthr : 0 < threshold) (hle : threshold ≤ limit)
    (hnf : (ErrorTracker.new threshold limit).noFatal evs = true) :
    ((((ErrorTracker.new threshold limit).run evs).increment_with_error).2 = true ↔
      ((ErrorTracker.new threshold limit).run evs).errors + 1 = threshold) ∧
    ((ErrorTracker.new threshold limit).run evs).errors <
      ((ErrorTracker.new threshold limit).run evs).attempts + 1 ∧
    ((ErrorTracker.new threshold limit).run evs).attempts + 1 ≤ limit ∧
    (((ErrorTracker.new threshold limit).run evs).attempts + 1 = limit →
      (((ErrorTracker.new threshold limit).run evs).increment).attempts = 0 ∧
      (((ErrorTracker.new threshold limit).run evs).increment).errors = 0) := by
  have hlive0 : (ErrorTracker.new threshold limit).Live :=
    ⟨show (0 : Nat) < threshold from hthr,
     show (0 : Nat) < limit by omega,
     Nat.le_refl 0⟩
  have hrun := ErrorTracker.run_live evs (ErrorTracker.new threshold limit)
    hthr hle hlive0 hnf
  rcases hrun with ⟨⟨he, ha, hea⟩, hthr_eq, hlim_eq⟩
  have hT : (ErrorTracker.new threshold limit).threshold = threshold := rfl
  have hL : (ErrorTracker.new threshold limit).limit = limit := rfl
  rw [hT] at hthr_eq
  rw [hL] at hlim_eq
  rw [hthr_eq] at he
  rw [hlim_eq] at ha
  refine ⟨?_, ?_, ?_, ?_⟩
  · rw [ErrorTracker.increment_with_error_verdict, hthr_eq]
    constructor
    · intro h; omega
    · intro h; omega
  · omega
  · omega
  · intro hfull
    have hcond : ((ErrorTracker.new threshold limit).run evs).attempts + 1 ≥
        ((ErrorTracker.new threshold limit).run evs).limit := by omega
    unfold ErrorTracker.increment
    rw [if_pos hcond]
    exact ⟨rfl, rfl⟩

/-- Witness for C1: the tracker of the receiver ingress pumps
(`threshold = 900`, `limit = 1000`, src/services/receiver.rs line 223)
after one success, one non-fatal failure and another success. -/
theorem error_tracker_fatal_iff_threshold_within_window_witness :
    ((((ErrorTracker.new READ_TRACK_THRESHOLD READ_TRACK_LIMIT).run
        [TrackerCall.success, TrackerCall.failure, TrackerCall.success]).increment_with_error).2 = true ↔
      ((ErrorTracker.new READ_TRACK_THRESHOLD READ_TRACK_LIMIT).run
        [TrackerCall.success, TrackerCall.failure, TrackerCall.success]).errors + 1 = READ_TRACK_THRESHOLD) ∧
    ((ErrorTracker.new READ_TRACK_THRESHOLD READ_TRACK_LIMIT).run
        [TrackerCall.success, TrackerCall.failure, TrackerCall.success]).errors <
      ((ErrorTracker.new READ_TRACK_THRESHOLD READ_TRACK_LIMIT).run
        [TrackerCall.success, TrackerCall.failure, TrackerCall.success]).attempts + 1 ∧
    ((ErrorTracker.new READ_TRACK_THRESHOLD READ_TRACK_LIMIT).run
        [TrackerCall.success, TrackerCall.failure, TrackerCall.success]).attempts + 1 ≤ READ_TRACK_LIMIT ∧
    (((ErrorTracker.new READ_TRACK_THRESHOLD READ_TRACK_LIMIT).run
        [TrackerCall.success, TrackerCall.failure, TrackerCall.success]).attempts + 1 = READ_TRACK_LIMIT →
      (((ErrorTracker.new READ_TRACK_THRESHOLD READ_TRACK_LIMIT).run
        [TrackerCall.success, TrackerCall.failure, TrackerCall.success]).increment).attempts = 0 ∧
      (((ErrorTracker.new READ_TRACK_THRESHOLD READ_TRACK_LIMIT).run
        [TrackerCall.success, TrackerCall.failure, TrackerCall.success]).increment).errors = 0) :=
  error_tracker_fatal_iff_threshold_within_window READ_TRACK_THRESHOLD READ_TRACK_LIMIT
    [TrackerCall.success, TrackerCall.failure, TrackerCall.success]
    (by decide) (by decide) (by decide)

/- ---------------------------------------------------------------------
Egress pump loops, from src/sender.rs.

`start_audio_sending` (lines 293-355) and `start_video_sending`
(lines 357-411) have the same loop body: `rx.recv()`; on `Ok(d)` call
`error_tracker.increment()` and write the frame to the track
(`audio_track.write_sample` / `video_track.write`); on write success call
`error_tracker.increment()` again and poll `shutdown.check_for_error()`,
returning if it is set; on write failure call
`error_tracker.increment_with_error()`, and if fatal call
`shutdown.notify_error(false)` and return, else `continue`; on `Err`
from `rx.recv()` call `error_tracker.increment_with_error()`, and if
fatal call `shutdown.notify_error(false)` and return, else `continue`.

The environment's choices for one iteration (did the channel receive
succeed and with which frame, did the track write succeed, what
`check_for_error` returns at the end of the iteration) are one event.
--------------------------------------------------------------------- -/

/-- Environment outcome of one egress-loop iteration: `recvOk frame
writeOk errFlag` when `rx.recv()` returned a frame (with the result of
the track write and the value `check_for_error` would return), `recvErr`
when `rx.recv()` failed. -/
inductive EgressEv where
  | recvOk (frame : List Nat) (writeOk : Bool) (errFlag : Bool)
  | recvErr
  deriving DecidableEq, Repr

/-- Observable effects of one egress-loop iteration: the tracker state
after it, whether `shutdown.notify_error(false)` was called, whether the
loop exited, and the frames written to the track (in order). -/
structure EgressStep where
  tracker : ErrorTracker
  notified : Bool
  exited : Bool
  written : List (List Nat)
  deriving DecidableEq, Repr

/-- One iteration of the loop of `start_audio_sending`
(src/sender.rs lines 307-354). -/
def start_audio_sending_iter (t : ErrorTracker) : EgressEv → EgressStep
  | EgressEv.recvErr =>
      if (t.increment_with_error).2 then
        { tracker := (t.increment_with_error).1, notified := true,
          exited := true, written := [] }
      else
        { tracker := (t.increment_with_error).1, notified := false,
          exited := false, written := [] }
  | EgressEv.recvOk frame writeOk errFlag =>
      if writeOk then
        { tracker := t.increment.increment, notified := false,
          exited := errFlag, written := [frame] }
      else
        if (t.increment.increment_with_error).2 then
          { tracker := (t.increment.increment_with_error).1, notified := true,
            exited := true, written := [] }
        else
          { tracker := (t.increment.increment_with_error).1, notified := false,
            exited := false, written := [] }

/-- One iteration of the loop of `start_video_sending`
(src/sender.rs lines 371-410); the body is the same as the audio one
with `video_track.write` in place of `audio_track.write_sample`. -/
def start_video_sending_iter (t : ErrorTracker) : EgressEv → EgressStep
  | EgressEv.recvErr =>
      if (t.increment_with_error).2 then
        { tracker := (t.increment_with_error).1, notified := true,
          exited := true, written := [] }
      else
        { tracker := (t.increment_with_error).1, notified := false,
          exited := false, written := [] }
  | EgressEv.recvOk frame writeOk errFlag =>
      if writeOk then
        { tracker := t.increment.increment, notified := false,
          exited := errFlag, written := [frame] }
      else
        if (t.increment.increment_with_error).2 then
          { tracker := (t.increment.increment_with_error).1, notified := true,
            exited := true, written := [] }
        else
          { tracker := (t.increment.increment_with_error).1, notified := false,
            exited := false, written := [] }

/-- Accumulated effects of an egress loop over a sequence of iteration
events, stopping at the first exiting iteration. -/
structure EgressRun where
  tracker : ErrorTracker
  notified : Bool
  exited : Bool
  written : List (List Nat)
  deriving DecidableEq, Repr

/-- The loop of `start_audio_sending` over a sequence of events. -/
def start_audio_sending_run (t : ErrorTracker) : List EgressEv → EgressRun
  | [] => { tracker := t, notified := false, exited := false, written := [] }
  | ev :: rest =>
      let st := start_audio_sending_iter t ev
      if st.exited then
        { tracker := st.tracker, notified := st.notified, exited := true,
          written := st.written }
      else
        let r := start_audio_sending_run st.tracker rest
        { tracker := r.tracker, notified := r.notified, exited := r.exited,
          written := st.written ++ r.written }

/-- The loop of `start_video_sending` over a sequence of events. -/
def start_video_sending_run (t : ErrorTracker) : List EgressEv → EgressRun
  | [] => { tracker := t, notified := false, exited := false, written := [] }
  | ev :: rest =>
      let st := start_video_sending_iter t ev
      if st.exited then
        { tracker := st.tracker, notified := st.notified, exited := true,
          written := st.written }
      else
        let r := start_video_sending_run st.tracker rest
        { tracker := r.tracker, notified := r.notified, exited := r.exited,
          written := st.written ++ r.written }

/-- The two egress loop bodies are the same function of the abstracted
iteration event. -/
lemma video_iter_eq_audio_iter :
    start_video_sending_iter = start_audio_sending_iter := by
  funext t ev
  cases ev <;> rfl

/-- The two egress loops are the same function of the event sequence. -/
lemma video_run_eq_audio_run :
    start_video_sending_run = start_audio_sending_run := by
  funext t evs
  induction evs generalizing t with
  | nil => rfl
  | cons ev rest ih =>
      simp only [start_video_sending_run, start_audio_sending_run,
        video_iter_eq_audio_iter, ih]

/-- In an all-success run the egress loop forwards every received frame,
never notifies the shutdown coordinator and never exits. -/
lemma start_audio_sending_run_all_success (t : ErrorTracker)
    (frames : List (List Nat)) :
    (start_audio_sending_run t
        (frames.map fun f => EgressEv.recvOk f true false)).written = frames ∧
    (start_audio_sending_run t
        (frames.map fun f => EgressEv.recvOk f true false)).exited = false ∧
    (start_audio_sending_run t
        (frames.map fun f => EgressEv.recvOk f true false)).notified = false := by
  induction frames generalizing t with
  | nil => simp [start_audio_sending_run]
  | cons f fs ih =>
      obtain ⟨h1, h2, h3⟩ := ih t.increment.increment
      simp [start_audio_sending_run, start_audio_sending_iter, h1, h2, h3]

/-- C8: for every run in which every channel receive and every track
write succeeds (and shutdown is never signalled), the frames written to
the track by each egress pump are exactly the frames taken from its
source channel, in the same order, with no duplication and no loss, and
the loop neither exits nor notifies the shutdown coordinator. -/
theorem egress_all_success_round_trip (t u : ErrorTracker)
    (frames : List (List Nat)) :
    (start_audio_sending_run t
        (frames.map fun f => EgressEv.recvOk f true false)).written = frames ∧
    (start_audio_sending_run t
        (frames.map fun f => EgressEv.recvOk f true false)).exited = false ∧
    (start_audio_sending_run t
        (frames.map fun f => EgressEv.recvOk f true false)).notified = false ∧
    (start_video_sending_run u
        (frames.map fun f => EgressEv.recvOk f true false)).written = frames ∧
    (start_video_sending_run u
        (frames.map fun f => EgressEv.recvOk f true false)).exited = false ∧
    (start_video_sending_run u
        (frames.map fun f => EgressEv.recvOk f true false)).notified = false := by
  obtain ⟨a1, a2, a3⟩ := start_audio_sending_run_all_success t frames
  obtain ⟨b1, b2, b3⟩ := start_audio_sending_run_all_success u frames
  rw [video_run_eq_audio_run]
  exact ⟨a1, a2, a3, b1, b2, b3⟩

/-- The tracker after a write-failure iteration is the one obtained by
one success recording (for the receive) followed by one failure
recording (for the failed write). -/
lemma start_audio_sending_iter_write_failure_tracker (t : ErrorTracker)
    (f : List Nat) (e : Bool) :
    (start_audio_sending_iter t (EgressEv.recvOk f false e)).tracker =
      (t.increment.increment_with_error).1 := by
  cases h : (t.increment.increment_with_error).2 <;>
    simp [start_audio_sending_iter, h]

/-- C6: when a track write fails and the tracker's verdict is non-fatal,
the egress pump writes nothing in that iteration, does not exit, does
not notify the shutdown coordinator, and the rest of the run is exactly
the run of the remaining events — the failed frame is dropped, never
re-sent. Stated for both egress pumps. -/
theorem egress_nonfatal_write_failure_drops_frame (t : ErrorTracker)
    (f : List Nat) (rest : List EgressEv)
    (hnf : (t.increment.increment_with_error).2 = false) :
    (start_audio_sending_iter t (EgressEv.recvOk f false false)).written = [] ∧
    (start_audio_sending_iter t (EgressEv.recvOk f false false)).exited = false ∧
    (start_audio_sending_iter t (EgressEv.recvOk f false false)).notified = false ∧
    start_audio_sending_run t (EgressEv.recvOk f false false :: rest) =
      start_audio_sending_run (t.increment.increment_with_error).1 rest ∧
    (start_video_sending_iter t (EgressEv.recvOk f false false)).written = [] ∧
    (start_video_sending_iter t (EgressEv.recvOk f false false)).exited = false ∧
    (start_video_sending_iter t (EgressEv.recvOk f false false)).notified = false ∧
    start_video_sending_run t (EgressEv.recvOk f false false :: rest) =
      start_video_sending_run (t.increment.increment_with_error).1 rest := by
  rw [video_run_eq_audio_run, video_iter_eq_audio_iter]
  have hiter : start_audio_sending_iter t (EgressEv.recvOk f false false) =
      { tracker := (t.increment.increment_with_error).1, notified := false,
        exited := false, written := [] } := by
    simp [start_audio_sending_iter, hnf]
  refine ⟨by rw [hiter], by rw [hiter], by rw [hiter], ?_, by rw [hiter],
    by rw [hiter], by rw [hiter], ?_⟩ <;>
  · show start_audio_sending_run t (EgressEv.recvOk f false false :: rest) = _
    simp only [start_audio_sending_run, hiter]
    simp

/-- Witness for C6 at the sender tracker configuration
(`threshold = 9000`, `limit = 10000`, src/sender.rs lines 304-305),
frame `[1]`, empty remainder. -/
theorem egress_nonfatal_write_failure_drops_frame_witness :
    (start_audio_sending_iter (ErrorTracker.new SEND_TRACK_THRESHOLD SEND_TRACK_LIMIT)
        (EgressEv.recvOk [1] false false)).written = [] ∧
    (start_audio_sending_iter (ErrorTracker.new SEND_TRACK_THRESHOLD SEND_TRACK_LIMIT)
        (EgressEv.recvOk [1] false false)).exited = false ∧
    (start_audio_sending_iter (ErrorTracker.new SEND_TRACK_THRESHOLD SEND_TRACK_LIMIT)
        (EgressEv.recvOk [1] false false)).notified = false ∧
    start_audio_sending_run (ErrorTracker.new SEND_TRACK_THRESHOLD SEND_TRACK_LIMIT)
        [EgressEv.recvOk [1] false false] =
      start_audio_sending_run
        (((ErrorTracker.new SEND_TRACK_THRESHOLD SEND_TRACK_LIMIT).increment).increment_with_error).1 [] ∧
    (start_video_sending_iter (ErrorTracker.new SEND_TRACK_THRESHOLD SEND_TRACK_LIMIT)
        (EgressEv.recvOk [1] false false)).written = [] ∧
    (start_video_sending_iter (ErrorTracker.new SEND_TRACK_THRESHOLD SEND_TRACK_LIMIT)
        (EgressEv.recvOk [1] false false)).exited = false ∧
    (start_video_sending_iter (ErrorTracker.new SEND_TRACK_THRESHOLD SEND_TRACK_LIMIT)
        (EgressEv.recvOk [1] false false)).notified = false ∧
    start_video_sending_run (ErrorTracker.new SEND_TRACK_THRESHOLD SEND_TRACK_LIMIT)
        [EgressEv.recvOk [1] false false] =
      start_video_sending_run
        (((ErrorTracker.new SEND_TRACK_THRESHOLD SEND_TRACK_LIMIT).increment).increment_with_error).1 [] :=
  egress_nonfatal_write_failure_drops_frame
    (ErrorTracker.new SEND_TRACK_THRESHOLD SEND_TRACK_LIMIT) [1] [] (by decide)

/- ---------------------------------------------------------------------
Attempt accounting of the egress loops (claim C9).
--------------------------------------------------------------------- -/

/-- A success recording on a tracker with no errors in the current
window advances the attempt counter by one, modulo the window limit. -/
lemma ErrorTracker.increment_mk_zero (thr l a : Nat) (h : a < l) :
    (ErrorTracker.mk thr l a 0).increment = ErrorTracker.mk thr l ((a + 1) % l) 0 := by
  by_cases hc : a + 1 ≥ l
  · have hl : a + 1 = l := by omega
    simp [ErrorTracker.increment, hc, ← hl, Nat.mod_self]
  · have hmod : (a + 1) % l = a + 1 := Nat.mod_eq_of_lt (by omega)
    simp [ErrorTracker.increment, hc, hmod]

/-- Running `k` success recordings on an error-free tracker leaves the
attempt counter at its start value plus `k`, modulo the window limit. -/
lemma ErrorTracker.run_replicate_success (thr l : Nat) (hl : 0 < l) :
    ∀ (k a : Nat), a < l →
      (ErrorTracker.mk thr l a 0).run (List.replicate k TrackerCall.success) =
        ErrorTracker.mk thr l ((a + k) % l) 0 := by
  intro k
  induction k with
  | zero =>
      intro a ha
      simp [ErrorTracker.run, Nat.mod_eq_of_lt ha]
  | succ k ih =>
      intro a ha
      rw [List.replicate_succ]
      show ((ErrorTracker.mk thr l a 0).increment).run
        (List.replicate k TrackerCall.success) = _
      rw [ErrorTracker.increment_mk_zero thr l a ha,
        ih ((a + 1) % l) (Nat.mod_lt _ hl)]
      have h1 : ((a + 1) % l + k) % l = ((a + 1) + k) % l :=
        Nat.ModEq.add_right k (Nat.mod_modEq (a + 1) l)
      rw [h1, show a + 1 + k = a + (k + 1) from by omega]

/-- The tracker at the end of an all-success egress run is the fresh
tracker advanced by two success recordings per frame. -/
lemma start_audio_sending_run_all_success_tracker (t : ErrorTracker)
    (frames : List (List Nat)) :
    (start_audio_sending_run t
        (frames.map fun f => EgressEv.recvOk f true false)).tracker =
      t.run (List.replicate (2 * frames.length) TrackerCall.success) := by
  induction frames generalizing t with
  | nil => simp [start_audio_sending_run, ErrorTracker.run]
  | cons f fs ih =>
      have h2 : 2 * (fs.length + 1) = 2 * fs.length + 1 + 1 := by ring
      simp only [List.map_cons, List.length_cons, h2, List.replicate_succ]
      show (start_audio_sending_run t (EgressEv.recvOk f true false ::
        fs.map fun g => EgressEv.recvOk g true false)).tracker = _
      simp only [start_audio_sending_run, start_audio_sending_iter]
      simp only [if_true, Bool.false_eq_true, if_false]
      exact ih t.increment.increment

/-- C9: one fully successful egress iteration records two successes on
the tracker (one for the channel receive, one for the track write), in
both the audio and the video loop; a received frame whose write fails
records one success and one failure; hence over an all-success run the
attempt counter advances by two per delivered frame, and with window
limit `2 * m` the window has just rolled over (both counters reset to
zero) after exactly `m` delivered frames. -/
theorem egress_two_tracker_recordings_per_frame (t : ErrorTracker)
    (f : List Nat) (e : Bool) (thr m : Nat) (frames : List (List Nat))
    (hm : 0 < m) :
    (start_audio_sending_iter t (EgressEv.recvOk f true e)).tracker =
      t.increment.increment ∧
    (start_video_sending_iter t (EgressEv.recvOk f true e)).tracker =
      t.increment.increment ∧
    (start_audio_sending_iter t (EgressEv.recvOk f false e)).tracker =
      (t.increment.increment_with_error).1 ∧
    (start_video_sending_iter t (EgressEv.recvOk f false e)).tracker =
      (t.increment.increment_with_error).1 ∧
    (start_audio_sending_run (ErrorTracker.new thr (2 * m))
        (frames.map fun g => EgressEv.recvOk g true false)).tracker =
      ErrorTracker.mk thr (2 * m) ((2 * frames.length) % (2 * m)) 0 ∧
    (frames.length = m →
      (start_audio_sending_run (ErrorTracker.new thr (2 * m))
          (frames.map fun g => EgressEv.recvOk g true false)).tracker.attempts = 0) := by
  have hrun : (start_audio_sending_run (ErrorTracker.new thr (2 * m))
      (frames.map fun g => EgressEv.recvOk g true false)).tracker =
      ErrorTracker.mk thr (2 * m) ((2 * frames.length) % (2 * m)) 0 := by
    rw [start_audio_sending_run_all_success_tracker]
    show (ErrorTracker.mk thr (2 * m) 0 0).run _ = _
    rw [ErrorTracker.run_replicate_success thr (2 * m) (by omega)
      (2 * frames.length) 0 (by omega)]
    rw [Nat.zero_add]
  refine ⟨by simp [start_audio_sending_iter], by simp [start_video_sending_iter],
    start_audio_sending_iter_write_failure_tracker t f e, ?_, hrun, ?_⟩
  · rw [video_iter_eq_audio_iter]
    exact start_audio_sending_iter_write_failure_tracker t f e
  · intro hlen
    rw [hrun, hlen]
    simp [Nat.mod_self]

/-- Witness for C9: sender tracker configuration (`threshold = 9000`,
`limit = 10000 = 2 * 5000`), a two-frame all-success run. -/
theorem egress_two_tracker_recordings_per_frame_witness :
    (start_audio_sending_iter (ErrorTracker.new 9000 10000)
        (EgressEv.recvOk [1] true false)).tracker =
      (ErrorTracker.new 9000 10000).increment.increment ∧
    (start_video_sending_iter (ErrorTracker.new 9000 10000)
        (EgressEv.recvOk [1] true false)).tracker =
      (ErrorTracker.new 9000 10000).increment.increment ∧
    (start_audio_sending_iter (ErrorTracker.new 9000 10000)
        (EgressEv.recvOk [1] false false)).tracker =
      ((ErrorTracker.new 9000 10000).increment.increment_with_error).1 ∧
    (start_video_sending_iter (ErrorTracker.new 9000 10000)
        (EgressEv.recvOk [1] false false)).tracker =
      ((ErrorTracker.new 9000 10000).increment.increment_with_error).1 ∧
    (start_audio_sending_run (ErrorTracker.new 9000 (2 * 5000))
        ([[2], [3]].map fun g => EgressEv.recvOk g true false)).tracker =
      ErrorTracker.mk 9000 (2 * 5000) ((2 * ([[2], [3]] : List (List Nat)).length) % (2 * 5000)) 0 ∧
    (([[2], [3]] : List (List Nat)).length = 5000 →
      (start_audio_sending_run (ErrorTracker.new 9000 (2 * 5000))
          ([[2], [3]].map fun g => EgressEv.recvOk g true false)).tracker.attempts = 0) :=
  egress_two_tracker_recordings_per_frame (ErrorTracker.new 9000 10000)
    [1] false 9000 5000 [[2], [3]] (by decide)

/- ---------------------------------------------------------------------
Ingress pump loops, from src/services/receiver.rs.

`read_audio_track` (lines 218-258) and `read_video_track`
(lines 270-313) loop on a `tokio::select!` over three arms: the track
read, `tokio::signal::ctrl_c()`, and `shutdown.wait_for_error()`.  On a
successful read the payload (audio) or the whole fixed 1400-byte buffer
(video) is forwarded with `tx.send(..)`; a send failure calls
`shutdown.notify_error(false)` and returns an error immediately, without
touching the tracker.  A failed read calls
`error_tracker.increment_with_error()`: fatal notifies and returns,
non-fatal just logs and loops.  The other two select arms return `Ok`.
A successful read never records a success on the tracker.
--------------------------------------------------------------------- -/

/-- Which select arm fired in one ingress-loop iteration, and the
environment's outcomes: `readOk payload sendOk` for a successful track
read with the given payload bytes and channel-send outcome, `readErr`
for a failed read, `ctrlC` and `shutdownSignal` for the other two arms. -/
inductive IngressEv where
  | readOk (payload : List Nat) (sendOk : Bool)
  | readErr
  | ctrlC
  | shutdownSignal
  deriving DecidableEq, Repr

/-- Observable effects of one ingress-loop iteration: tracker state
after it, whether `shutdown.notify_error(false)` was called, whether the
loop exited, and the frames sent to the playback channel. -/
structure IngressStep where
  tracker : ErrorTracker
  notified : Bool
  exited : Bool
  sent : List (List Nat)
  deriving DecidableEq, Repr

/-- One iteration of the loop of `read_audio_track`
(src/services/receiver.rs lines 226-257); the forwarded frame is the
RTP payload as read. -/
def read_audio_track_iter (t : ErrorTracker) : IngressEv → IngressStep
  | IngressEv.readOk payload sendOk =>
      if sendOk then
        { tracker := t, notified := false, exited := false, sent := [payload] }
      else
        { tracker := t, notified := true, exited := true, sent := [] }
  | IngressEv.readErr =>
      if (t.increment_with_error).2 then
        { tracker := (t.increment_with_error).1, notified := true,
          exited := true, sent := [] }
      else
        { tracker := (t.increment_with_error).1, notified := false,
          exited := false, sent := [] }
  | IngressEv.ctrlC =>
      { tracker := t, notified := false, exited := true, sent := [] }
  | IngressEv.shutdownSignal =>
      { tracker := t, notified := false, exited := true, sent := [] }

/-- The fixed read-buffer size of `read_video_track`
(src/services/receiver.rs line 279: `let mut buff: [u8; 1400] = [0; 1400]`). -/
def VIDEO_READ_BUFF_SIZE : Nat := 1400

/-- The frame `read_video_track` forwards after a successful read: the
whole zero-initialised 1400-byte buffer with the read bytes written at
its front (`tx.send(buff.to_vec())`, src/services/receiver.rs line 285). -/
def video_read_buffer (payload : List Nat) : List Nat :=
  payload.take VIDEO_READ_BUFF_SIZE ++
    List.replicate (VIDEO_READ_BUFF_SIZE - payload.length) 0

/-- One iteration of the loop of `read_video_track`
(src/services/receiver.rs lines 278-312); unlike the audio loop it
forwards the entire fixed-size buffer, not just the bytes read. -/
def read_video_track_iter (t : ErrorTracker) : IngressEv → IngressStep
  | IngressEv.readOk payload sendOk =>
      if sendOk then
        { tracker := t, notified := false, exited := false,
          sent := [video_read_buffer payload] }
      else
        { tracker := t, notified := true, exited := true, sent := [] }
  | IngressEv.readErr =>
      if (t.increment_with_error).2 then
        { tracker := (t.increment_with_error).1, notified := true,
          exited := true, sent := [] }
      else
        { tracker := (t.increment_with_error).1, notified := false,
          exited := false, sent := [] }
  | IngressEv.ctrlC =>
      { tracker := t, notified := false, exited := true, sent := [] }
  | IngressEv.shutdownSignal =>
      { tracker := t, notified := false, exited := true, sent := [] }

/- ---------------------------------------------------------------------
Error classification per pump (claim C2) and the video ingress buffer
(claim C10).
--------------------------------------------------------------------- -/

/-- A source (channel receive) error in the audio egress loop: one
failure recording; notify and exit exactly on the fatal verdict. -/
lemma start_audio_sending_iter_recvErr (t : ErrorTracker) :
    start_audio_sending_iter t EgressEv.recvErr =
      { tracker := (t.increment_with_error).1,
        notified := (t.increment_with_error).2,
        exited := (t.increment_with_error).2, written := [] } := by
  cases h : (t.increment_with_error).2 <;> simp [start_audio_sending_iter, h]

/-- A sink (track write) error in the audio egress loop: one success
recording for the receive then one failure recording; notify and exit
exactly on the fatal verdict. -/
lemma start_audio_sending_iter_write_failure (t : ErrorTracker)
    (f : List Nat) (e : Bool) :
    start_audio_sending_iter t (EgressEv.recvOk f false e) =
      { tracker := (t.increment.increment_with_error).1,
        notified := (t.increment.increment_with_error).2,
        exited := (t.increment.increment_with_error).2, written := [] } := by
  cases h : (t.increment.increment_with_error).2 <;>
    simp [start_audio_sending_iter, h]

/-- A read error in the audio ingress loop: one failure recording;
notify and exit exactly on the fatal verdict. -/
lemma read_audio_track_iter_readErr (t : ErrorTracker) :
    read_audio_track_iter t IngressEv.readErr =
      { tracker := (t.increment_with_error).1,
        notified := (t.increment_with_error).2,
        exited := (t.increment_with_error).2, sent := [] } := by
  cases h : (t.increment_with_error).2 <;> simp [read_audio_track_iter, h]

/-- A read error in the video ingress loop: one failure recording;
notify and exit exactly on the fatal verdict. -/
lemma read_video_track_iter_readErr (t : ErrorTracker) :
    read_video_track_iter t IngressEv.readErr =
      { tracker := (t.increment_with_error).1,
        notified := (t.increment_with_error).2,
        exited := (t.increment_with_error).2, sent := [] } := by
  cases h : (t.increment_with_error).2 <;> simp [read_video_track_iter, h]

/-- C2 counterexample: in the audio ingress pump a sink error (the
channel send to the playback side failing) escalates to the shutdown
coordinator immediately — `notified = true` with the tracker exactly as
before, so no failed attempt was recorded and no fatal verdict was
obtained — refuting the claim that in every pump, ingress included,
every error is recorded as one failed attempt and escalation happens
only on a fatal tracker verdict. -/
theorem ingress_sink_error_escalates_without_tracker_counterexample :
    (read_audio_track_iter (ErrorTracker.new READ_TRACK_THRESHOLD READ_TRACK_LIMIT)
        (IngressEv.readOk [1] false)).notified = true ∧
    (read_audio_track_iter (ErrorTracker.new READ_TRACK_THRESHOLD READ_TRACK_LIMIT)
        (IngressEv.readOk [1] false)).tracker =
      ErrorTracker.new READ_TRACK_THRESHOLD READ_TRACK_LIMIT ∧
    (read_video_track_iter (ErrorTracker.new READ_TRACK_THRESHOLD READ_TRACK_LIMIT)
        (IngressEv.readOk [1] false)).notified = true ∧
    (read_video_track_iter (ErrorTracker.new READ_TRACK_THRESHOLD READ_TRACK_LIMIT)
        (IngressEv.readOk [1] false)).tracker =
      ErrorTracker.new READ_TRACK_THRESHOLD READ_TRACK_LIMIT := by
  refine ⟨rfl, rfl, rfl, rfl⟩

/-- C2 amended: in the two egress pumps a source error and a sink error
are classified identically — each records exactly one failed attempt
(`increment_with_error`) and escalates to the shutdown coordinator
exactly when that recording returns the fatal verdict; in the two
ingress pumps the source (read) error behaves the same way, but a sink
error (channel send failure) escalates immediately without consulting
the tracker, leaving it unchanged. -/
theorem error_classification_per_pump (t : ErrorTracker) (f : List Nat) :
    (start_audio_sending_iter t EgressEv.recvErr).tracker =
      (t.increment_with_error).1 ∧
    (start_audio_sending_iter t EgressEv.recvErr).notified =
      (t.increment_with_error).2 ∧
    (start_audio_sending_iter t (EgressEv.recvOk f false false)).tracker =
      (t.increment.increment_with_error).1 ∧
    (start_audio_sending_iter t (EgressEv.recvOk f false false)).notified =
      (t.increment.increment_with_error).2 ∧
    (start_video_sending_iter t EgressEv.recvErr).tracker =
      (t.increment_with_error).1 ∧
    (start_video_sending_iter t EgressEv.recvErr).notified =
      (t.increment_with_error).2 ∧
    (start_video_sending_iter t (EgressEv.recvOk f false false)).tracker =
      (t.increment.increment_with_error).1 ∧
    (start_video_sending_iter t (EgressEv.recvOk f false false)).notified =
      (t.increment.increment_with_error).2 ∧
    (read_audio_track_iter t IngressEv.readErr).tracker =
      (t.increment_with_error).1 ∧
    (read_audio_track_iter t IngressEv.readErr).notified =
      (t.increment_with_error).2 ∧
    (read_video_track_iter t IngressEv.readErr).tracker =
      (t.increment_with_error).1 ∧
    (read_video_track_iter t IngressEv.readErr).notified =
      (t.increment_with_error).2 ∧
    (read_audio_track_iter t (IngressEv.readOk f false)).notified = true ∧
    (read_audio_track_iter t (IngressEv.readOk f false)).tracker = t ∧
    (read_video_track_iter t (IngressEv.readOk f false)).notified = true ∧
    (read_video_track_iter t (IngressEv.readOk f false)).tracker = t := by
  rw [video_iter_eq_audio_iter, start_audio_sending_iter_recvErr,
    start_audio_sending_iter_write_failure, read_audio_track_iter_readErr,
    read_video_track_iter_readErr]
  refine ⟨rfl, rfl, rfl, rfl, rfl, rfl, rfl, rfl, rfl, rfl, rfl, rfl,
    rfl, rfl, rfl, rfl⟩

/-- C10: after every successful read in the video ingress loop the frame
forwarded to the playback channel is the entire fixed 1400-byte buffer —
the payload bytes followed by the zero-initialised remainder of the
buffer — so its length is exactly 1400 no matter how short the packet
was. -/
theorem video_ingress_forwards_full_buffer (t : ErrorTracker)
    (payload : List Nat) (hlen : payload.length ≤ VIDEO_READ_BUFF_SIZE) :
    (read_video_track_iter t (IngressEv.readOk payload true)).sent =
      [payload ++ List.replicate (VIDEO_READ_BUFF_SIZE - payload.length) 0] ∧
    (payload ++ List.replicate (VIDEO_READ_BUFF_SIZE - payload.length) 0).length =
      VIDEO_READ_BUFF_SIZE ∧
    (read_video_track_iter t (IngressEv.readOk payload true)).exited = false ∧
    (read_video_track_iter t (IngressEv.readOk payload true)).notified = false := by
  refine ⟨?_, ?_, rfl, rfl⟩
  · show [video_read_buffer payload] = _
    rw [video_read_buffer, List.take_of_length_le hlen]
  · simp only [List.length_append, List.length_replicate]
    omega

/-- Witness for C10: a 3-byte packet on the fresh receiver tracker is
forwarded as 1400 bytes: the packet plus 1397 zero bytes. -/
theorem video_ingress_forwards_full_buffer_witness :
    (read_video_track_iter (ErrorTracker.new READ_TRACK_THRESHOLD READ_TRACK_LIMIT)
        (IngressEv.readOk [7, 7, 7] true)).sent =
      [[7, 7, 7] ++ List.replicate (VIDEO_READ_BUFF_SIZE - ([7, 7, 7] : List Nat).length) 0] ∧
    (([7, 7, 7] : List Nat) ++
        List.replicate (VIDEO_READ_BUFF_SIZE - ([7, 7, 7] : List Nat).length) 0).length =
      VIDEO_READ_BUFF_SIZE ∧
    (read_video_track_iter (ErrorTracker.new READ_TRACK_THRESHOLD READ_TRACK_LIMIT)
        (IngressEv.readOk [7, 7, 7] true)).exited = false ∧
    (read_video_track_iter (ErrorTracker.new READ_TRACK_THRESHOLD READ_TRACK_LIMIT)
        (IngressEv.readOk [7, 7, 7] true)).notified = false :=
  video_ingress_forwards_full_buffer
    (ErrorTracker.new READ_TRACK_THRESHOLD READ_TRACK_LIMIT) [7, 7, 7] (by decide)

/- ---------------------------------------------------------------------
Shutdown coordinator (claim C5).

Modelled from the spec: the implementation file `src/utils/shutdown.rs`
is not in the source tree (only its callers are, e.g. src/sender.rs
lines 46, 300, 319, 342, 351).  Spec sections 3 and 4.2 give the state
`{ error_flag, error_is_fatal, reason }` plus the set of tasks suspended
in `wait_for_error`, and the contract of `notify_error(fatal, reason)`:
on the first call in a session it sets `error_flag = true`, records the
fatal flag and the reason, and wakes every task currently suspended in
`wait_for_error`; subsequent calls are no-ops with respect to state.
The model records wakes in an append-only log so "woken exactly once per
waiter" is observable.
--------------------------------------------------------------------- -/

/-- Modelled from the spec: observable shutdown-coordinator state.
`waiting` lists the tasks currently suspended in `wait_for_error`;
`wokenLog` is the append-only log of wakes delivered to waiters. -/
structure ShutdownState where
  error_flag : Bool
  error_is_fatal : Bool
  reason : Option String
  waiting : List Nat
  wokenLog : List Nat
  deriving DecidableEq, Repr

/-- Modelled from the spec: a fresh coordinator for one session. -/
def ShutdownState.new : ShutdownState :=
  { error_flag := false, error_is_fatal := false, reason := none,
    waiting := [], wokenLog := [] }

/-- Modelled from the spec: a task suspends in `wait_for_error`
(suspension only happens while no error has been notified; once the flag
is set the call returns immediately and the task never joins the wait
set). -/
def ShutdownState.suspend_waiter (s : ShutdownState) (task : Nat) : ShutdownState :=
  if s.error_flag then s else { s with waiting := s.waiting ++ [task] }

/-- Modelled from the spec: `notify_error(fatal, reason)` — first-writer
wins: the first call sets the flag, records fatal and reason and wakes
every suspended waiter; any later call leaves the state unchanged. -/
def ShutdownState.notify_error (s : ShutdownState) (fatal : Bool)
    (why : String) : ShutdownState :=
  if s.error_flag then s
  else
    { error_flag := true, error_is_fatal := fatal, reason := some why,
      waiting := [], wokenLog := s.wokenLog ++ s.waiting }

/-- Modelled from the spec: `check_for_error` polls the flag. -/
def ShutdownState.check_for_error (s : ShutdownState) : Bool :=
  s.error_flag

/-- A sequence of further `notify_error` calls, folded over the state. -/
def ShutdownState.notify_all (s : ShutdownState) : List (Bool × String) → ShutdownState
  | [] => s
  | c :: rest => (s.notify_error c.1 c.2).notify_all rest

lemma ShutdownState.notify_error_of_flag {s : ShutdownState}
    (h : s.error_flag = true) (fatal : Bool) (why : String) :
    s.notify_error fatal why = s := by
  unfold ShutdownState.notify_error
  rw [if_pos h]

lemma ShutdownState.notify_all_of_flag {s : ShutdownState}
    (h : s.error_flag = true) :
    ∀ calls : List (Bool × String), s.notify_all calls = s := by
  intro calls
  induction calls with
  | nil => rfl
  | cons c rest ih =>
      show ((s.notify_error c.1 c.2).notify_all rest) = s
      rw [ShutdownState.notify_error_of_flag h, ih]

/-- C5: starting from any coordinator state on which no error has yet
been notified, the first `notify_error(fatal, reason)` call sets the
error flag, records that call's fatal flag and reason, and wakes each
currently suspended waiter exactly once (the wake log grows by exactly
the waiting list); every later `notify_error` call, whatever its
arguments, leaves the state — flag, fatal, reason and wake log —
completely unchanged, so N ≥ 1 calls are observably the same as one and
the flag never reverts to false. -/
theorem notify_error_first_writer_wins_idempotent (s : ShutdownState)
    (fatal : Bool) (why : String) (calls : List (Bool × String))
    (h : s.error_flag = false) :
    (s.notify_error fatal why).notify_all calls = s.notify_error fatal why ∧
    (s.notify_error fatal why).error_flag = true ∧
    (s.notify_error fatal why).error_is_fatal = fatal ∧
    (s.notify_error fatal why).reason = some why ∧
    (s.notify_error fatal why).wokenLog = s.wokenLog ++ s.waiting ∧
    (s.notify_error fatal why).waiting = [] := by
  have hstep : s.notify_error fatal why =
      { error_flag := true, error_is_fatal := fatal, reason := some why,
        waiting := [], wokenLog := s.wokenLog ++ s.waiting } := by
    unfold ShutdownState.notify_error
    rw [if_neg (by simp [h])]
  refine ⟨?_, ?_, ?_, ?_, ?_, ?_⟩
  · exact ShutdownState.notify_all_of_flag (by rw [hstep]) calls
  · rw [hstep]
  · rw [hstep]
  · rw [hstep]
  · rw [hstep]
  · rw [hstep]

/-- Witness for C5: a fresh session with tasks 1 and 2 suspended in
`wait_for_error`; task 3 notifies a non-fatal error and two further
calls (one of them fatal) change nothing. -/
theorem notify_error_first_writer_wins_idempotent_witness :
    ((ShutdownState.new.suspend_waiter 1).suspend_waiter 2
      |>.notify_error false "x").notify_all [(true, "y"), (false, "z")] =
      ((ShutdownState.new.suspend_waiter 1).suspend_waiter 2
        |>.notify_error false "x") ∧
    (((ShutdownState.new.suspend_waiter 1).suspend_waiter 2).notify_error
        false "x").error_flag = true ∧
    (((ShutdownState.new.suspend_waiter 1).suspend_waiter 2).notify_error
        false "x").error_is_fatal = false ∧
    (((ShutdownState.new.suspend_waiter 1).suspend_waiter 2).notify_error
        false "x").reason = some "x" ∧
    (((ShutdownState.new.suspend_waiter 1).suspend_waiter 2).notify_error
        false "x").wokenLog =
      ((ShutdownState.new.suspend_waiter 1).suspend_waiter 2).wokenLog ++
        ((ShutdownState.new.suspend_waiter 1).suspend_waiter 2).waiting ∧
    (((ShutdownState.new.suspend_waiter 1).suspend_waiter 2).notify_error
        false "x").waiting = [] :=
  notify_error_first_writer_wins_idempotent
    ((ShutdownState.new.suspend_waiter 1).suspend_waiter 2) false "x"
    [(true, "y"), (false, "z")] rfl

/- ---------------------------------------------------------------------
Startup gating of the sender's tasks (claim C3).

From `main` in src/sender.rs: `let barrier = Arc::new(Barrier::new(3))`
(line 48); clones of the barrier are handed to exactly three places —
the audio-capture task (lines 65-67), the video-capture task
(lines 73-75) and `set_peer_events` (line 107), whose ICE
connection-state handler awaits the barrier when the state becomes
`Connected` (lines 236-248) right after calling
`notify_tx.notify_waiters()`.  The egress pumps `start_audio_sending`
(spawned at line 99) and `start_video_sending` (line 104) are handed a
clone of the `Notify` instead and their only pre-loop await is
`notified()` (lines 302 and 366); they never see the barrier.
`start_video_capture` awaits the barrier at src/video/video_capture.rs
line 41; the audio-capture wait lives in the missing module
`sound/audio_capture.rs` and is modelled from the spec (section 4.3) by
analogy with the video one.
--------------------------------------------------------------------- -/

/-- The concurrent tasks spawned by the sender's `main`. -/
inductive SenderTask where
  | audioCapture
  | videoCapture
  | audioEgress
  | videoEgress
  | rtcpReader
  | iceConnectedHandler
  deriving DecidableEq, Repr

/-- What a sender task blocks on before entering its work loop. -/
inductive StartGate where
  | barrierWait
  | notifyConnectedWait
  | noGate
  deriving DecidableEq, Repr

/-- First pre-loop await of each sender task, read off src/sender.rs
(lines 302, 366, 280), src/video/video_capture.rs (line 41) and the
ICE handler (src/sender.rs lines 240-244); the audio-capture entry is
modelled from the spec as described above. -/
def sender_start_gate : SenderTask → StartGate
  | SenderTask.audioCapture => StartGate.barrierWait
  | SenderTask.videoCapture => StartGate.barrierWait
  | SenderTask.audioEgress => StartGate.notifyConnectedWait
  | SenderTask.videoEgress => StartGate.notifyConnectedWait
  | SenderTask.rtcpReader => StartGate.noGate
  | SenderTask.iceConnectedHandler => StartGate.barrierWait

/-- Which tasks are handed a clone of the startup barrier by `main`
(src/sender.rs lines 65, 73, 107; the egress pumps at lines 99 and 104
receive the `Notify`, the receiver channel and the track only). -/
def receives_barrier_handle : SenderTask → Bool
  | SenderTask.audioCapture => true
  | SenderTask.videoCapture => true
  | SenderTask.iceConnectedHandler => true
  | SenderTask.audioEgress => false
  | SenderTask.videoEgress => false
  | SenderTask.rtcpReader => false

/-- Party count of the startup barrier, src/sender.rs line 48. -/
def sender_barrier_parties : Nat := 3

/-- All sender tasks, for party counting. -/
def sender_tasks : List SenderTask :=
  [SenderTask.audioCapture, SenderTask.videoCapture, SenderTask.audioEgress,
   SenderTask.videoEgress, SenderTask.rtcpReader, SenderTask.iceConnectedHandler]

/-- The connection-state events the ICE handler can observe
(src/sender.rs lines 236-248). -/
inductive IceStateEvent where
  | connected
  | otherState
  deriving DecidableEq, Repr

/-- Whether the ICE connection-state handler calls
`notify_tx.notify_waiters()` on an event: only on `Connected`
(src/sender.rs lines 238-239). -/
def ice_handler_fires_notify : IceStateEvent → Bool
  | IceStateEvent.connected => true
  | IceStateEvent.otherState => false

/-- C3 counterexample: neither egress pump waits on the startup
barrier — their pre-loop gate is the connected `Notify`, and `main`
never even hands them a barrier handle — refuting the claim that the
egress pumps are among the parties that rendezvous on the barrier
before entering their loop. -/
theorem egress_pumps_not_barrier_parties_counterexample :
    sender_start_gate SenderTask.audioEgress ≠ StartGate.barrierWait ∧
    sender_start_gate SenderTask.videoEgress ≠ StartGate.barrierWait ∧
    receives_barrier_handle SenderTask.audioEgress = false ∧
    receives_barrier_handle SenderTask.videoEgress = false := by
  refine ⟨by decide, by decide, rfl, rfl⟩

/-- C3 amended: the egress pumps do not write before the control-plane
task observes the connection reach the connected state — but the gate is
the `Notify` fired exactly on the `Connected` ICE event, not the
barrier; the three parties of the 3-party startup barrier are the
audio-capture task, the video-capture task and the ICE-connected
handler, and they are exactly the tasks holding a barrier handle. -/
theorem egress_pumps_gated_by_connected_notify :
    sender_start_gate SenderTask.audioEgress = StartGate.notifyConnectedWait ∧
    sender_start_gate SenderTask.videoEgress = StartGate.notifyConnectedWait ∧
    (∀ e, ice_handler_fires_notify e = true ↔ e = IceStateEvent.connected) ∧
    sender_tasks.filter
        (fun t => decide (sender_start_gate t = StartGate.barrierWait)) =
      [SenderTask.audioCapture, SenderTask.videoCapture,
       SenderTask.iceConnectedHandler] ∧
    (sender_tasks.filter
        (fun t => decide (sender_start_gate t = StartGate.barrierWait))).length =
      sender_barrier_parties ∧
    (∀ t, receives_barrier_handle t = true ↔
      sender_start_gate t = StartGate.barrierWait) := by
  refine ⟨rfl, rfl, ?_, by decide, by decide, ?_⟩
  · intro e; cases e <;> simp [ice_handler_fires_notify]
  · intro t; cases t <;> simp [receives_barrier_handle, sender_start_gate]

/- ---------------------------------------------------------------------
Blocking waits of the four pumps (claim C4).

The egress loops block on the synchronous `std::sync::mpsc`
`rx.recv()` (src/sender.rs lines 308 and 372) and on the track write
awaits (`write_sample(..).await` lines 331-337, `write(..).await`
line 394); neither is wrapped in a `tokio::select!` with
`shutdown.wait_for_error()`; those loops observe shutdown only through
`shutdown.check_for_error().await` at the end of a fully successful
iteration (lines 351-353 and 407-409).  The ingress loops' only
blocking wait is the `tokio::select!` racing the track read against
`tokio::signal::ctrl_c()` and `shutdown.wait_for_error()`
(src/services/receiver.rs lines 227-256 and 280-311).
--------------------------------------------------------------------- -/

/-- The four stream pumps of the application. -/
inductive PumpId where
  | audioEgress
  | videoEgress
  | audioIngress
  | videoIngress
  deriving DecidableEq, Repr

/-- Kind of a blocking wait inside a pump loop. -/
inductive WaitSite where
  | channelRecv
  | trackWrite
  | selectTrackRead
  deriving DecidableEq, Repr

/-- One blocking wait of a pump loop, with whether it is expressed as a
race against the shutdown coordinator's stop signal
(`tokio::select!` with a `wait_for_error()` arm). -/
structure BlockingWait where
  site : WaitSite
  races_stop_signal : Bool
  deriving DecidableEq, Repr

/-- The blocking waits of each pump loop, read off the sources cited in
the section comment. -/
def pump_blocking_waits : PumpId → List BlockingWait
  | PumpId.audioEgress =>
      [{ site := WaitSite.channelRecv, races_stop_signal := false },
       { site := WaitSite.trackWrite, races_stop_signal := false }]
  | PumpId.videoEgress =>
      [{ site := WaitSite.channelRecv, races_stop_signal := false },
       { site := WaitSite.trackWrite, races_stop_signal := false }]
  | PumpId.audioIngress =>
      [{ site := WaitSite.selectTrackRead, races_stop_signal := true }]
  | PumpId.videoIngress =>
      [{ site := WaitSite.selectTrackRead, races_stop_signal := true }]

/-- Whether a pump loop polls `shutdown.check_for_error()` at its loop
boundary (src/sender.rs lines 351 and 407; the ingress loops have no
such poll). -/
def pump_polls_shutdown_at_loop_end : PumpId → Bool
  | PumpId.audioEgress => true
  | PumpId.videoEgress => true
  | PumpId.audioIngress => false
  | PumpId.videoIngress => false

/-- C4 counterexample: in the audio egress pump the wait for the next
frame from the source channel — precisely the suspension point the
claim singles out — is not raced against the stop signal, and the same
holds for the video egress pump, refuting "in every pump, every
blocking wait is expressed as a race with the shutdown signal". -/
theorem egress_channel_recv_not_raced_counterexample :
    { site := WaitSite.channelRecv, races_stop_signal := false } ∈
      pump_blocking_waits PumpId.audioEgress ∧
    { site := WaitSite.channelRecv, races_stop_signal := false } ∈
      pump_blocking_waits PumpId.videoEgress ∧
    ¬ (pump_blocking_waits PumpId.audioEgress).all
        (fun w => w.races_stop_signal) = true := by
  refine ⟨by decide, by decide, by decide⟩

/-- C4 amended: the ingress pumps express their only blocking wait as a
race against the stop signal, so a notified error unblocks them at that
suspension point; the egress pumps' blocking waits (the source-channel
receive and the track write) are not raced against the stop signal, and
those pumps observe shutdown only by polling `check_for_error` at the
boundary of a fully successful iteration. -/
theorem ingress_waits_race_stop_signal_egress_polls :
    (∀ w ∈ pump_blocking_waits PumpId.audioIngress, w.races_stop_signal = true) ∧
    (∀ w ∈ pump_blocking_waits PumpId.videoIngress, w.races_stop_signal = true) ∧
    (∀ w ∈ pump_blocking_waits PumpId.audioEgress, w.races_stop_signal = false) ∧
    (∀ w ∈ pump_blocking_waits PumpId.videoEgress, w.races_stop_signal = false) ∧
    pump_polls_shutdown_at_loop_end PumpId.audioEgress = true ∧
    pump_polls_shutdown_at_loop_end PumpId.videoEgress = true := by
  refine ⟨?_, ?_, ?_, ?_, rfl, rfl⟩ <;> decide

/- ---------------------------------------------------------------------
Setup-failure escalation (claim C7).

Setup failures and how they escalate, read off the sources:
in src/sender.rs `check_error` calls `shutdown.notify_error(true)`
(lines 267-272) for `Communication::new` (line 57) and
`Latency::start_latency_sender` (line 88); `create_track` and
`create_track_2` call `notify_error(true)` when `add_track` fails
(lines 190, 219); offer creation, `set_local_description` and a missing
local description call `notify_error(true)` (lines 113, 122, 138).
In src/services/receiver.rs a failure to create or start `InputCapture`
calls `notify_error(false)` (lines 46-60).  In
src/video/video_capture.rs failures of `gstreamer::init`,
`create_elements`, `create_pipeline` and setting the pipeline to
`Playing` call `notify_error(false)` (lines 33-40, 77-87, 89-99,
102-109).  None of these paths touches any Error Tracker: the trackers
exist only inside the four pump loops.
--------------------------------------------------------------------- -/

/-- Places where constructing a pump's source or sink can fail. -/
inductive SetupSite where
  | communicationNew
  | audioTrackAdd
  | videoTrackAdd
  | latencySenderStart
  | createOffer
  | setLocalDescription
  | localDescriptionMissing
  | inputCaptureNew
  | inputCaptureStart
  | gstreamerInit
  | videoElementsCreate
  | videoPipelineCreate
  | videoPipelinePlay
  deriving DecidableEq, Repr

/-- How one setup failure escalates: whether it calls
`shutdown.notify_error`, with which fatal flag, and whether any Error
Tracker records a failed attempt on the way. -/
structure SetupFailureEscalation where
  notifies_shutdown : Bool
  marked_fatal : Bool
  records_tracker_attempt : Bool
  deriving DecidableEq, Repr

/-- Escalation of each setup-failure site, read off the sources cited
in the section comment. -/
def setup_failure_escalation : SetupSite → SetupFailureEscalation
  | SetupSite.communicationNew =>
      { notifies_shutdown := true, marked_fatal := true, records_tracker_attempt := false }
  | SetupSite.audioTrackAdd =>
      { notifies_shutdown := true, marked_fatal := true, records_tracker_attempt := false }
  | SetupSite.videoTrackAdd =>
      { notifies_shutdown := true, marked_fatal := true, records_tracker_attempt := false }
  | SetupSite.latencySenderStart =>
      { notifies_shutdown := true, marked_fatal := true, records_tracker_attempt := false }
  | SetupSite.createOffer =>
      { notifies_shutdown := true, marked_fatal := true, records_tracker_attempt := false }
  | SetupSite.setLocalDescription =>
      { notifies_shutdown := true, marked_fatal := true, records_tracker_attempt := false }
  | SetupSite.localDescriptionMissing =>
      { notifies_shutdown := true, marked_fatal := true, records_tracker_attempt := false }
  | SetupSite.inputCaptureNew =>
      { notifies_shutdown := true, marked_fatal := false, records_tracker_attempt := false }
  | SetupSite.inputCaptureStart =>
      { notifies_shutdown := true, marked_fatal := false, records_tracker_attempt := false }
  | SetupSite.gstreamerInit =>
      { notifies_shutdown := true, marked_fatal := false, records_tracker_attempt := false }
  | SetupSite.videoElementsCreate =>
      { notifies_shutdown := true, marked_fatal := false, records_tracker_attempt := false }
  | SetupSite.videoPipelineCreate =>
      { notifies_shutdown := true, marked_fatal := false, records_tracker_attempt := false }
  | SetupSite.videoPipelinePlay =>
      { notifies_shutdown := true, marked_fatal := false, records_tracker_attempt := false }

/-- C7 counterexample: input-capture creation failure and the video
pipeline-creation failures — sites the claim itself cites — escalate
with `notify_error(false)`, not marked fatal, refuting "escalates
immediately to the Shutdown Coordinator marked as fatal". -/
theorem setup_failure_not_marked_fatal_counterexample :
    (setup_failure_escalation SetupSite.inputCaptureNew).marked_fatal = false ∧
    (setup_failure_escalation SetupSite.gstreamerInit).marked_fatal = false ∧
    (setup_failure_escalation SetupSite.videoPipelineCreate).marked_fatal = false ∧
    (setup_failure_escalation SetupSite.inputCaptureNew).notifies_shutdown = true := by
  refine ⟨rfl, rfl, rfl, rfl⟩

/-- C7 amended: every setup failure escalates immediately to the
shutdown coordinator and no Error Tracker records an attempt on the
way; but only the failures on the sender's main setup path carry
`fatal = true` — the spawned input-capture and video-capture setup
failures are reported with `fatal = false`. -/
theorem setup_failure_escalates_without_tracker :
    (∀ s, (setup_failure_escalation s).notifies_shutdown = true) ∧
    (∀ s, (setup_failure_escalation s).records_tracker_attempt = false) ∧
    (∀ s, (setup_failure_escalation s).marked_fatal = true ↔
      s ∈ [SetupSite.communicationNew, SetupSite.audioTrackAdd,
           SetupSite.videoTrackAdd, SetupSite.latencySenderStart,
           SetupSite.createOffer, SetupSite.setLocalDescription,
           SetupSite.localDescriptionMissing]) := by
  refine ⟨?_, ?_, ?_⟩ <;> intro s <;> cases s <;> decide
